import Mathlib

/-!
Verification of the real-time threat pipeline of the Honeypot-in-a-Box
dashboard (src/App.tsx, src/services/api.ts), as a shallow embedding in
Lean 4.  Each TypeScript state updater or pure helper becomes a Lean
function on explicit state; JavaScript numbers that only ever hold small
integers are modelled as Int/Nat, and the `Math.random()` draw is an
explicit rational parameter r with 0 ≤ r < 1.
-/

/-- Severity enum of a Threat (src: `'low' | 'medium' | 'high' | 'critical'`). -/
inductive Severity where
  | low
  | medium
  | high
  | critical
deriving DecidableEq, Repr

/-- Threat record (src/types: used by App.tsx and services/api.ts).
`confidence` is a number in the source; it is an integer everywhere it is
produced, so it is modelled as Int. -/
structure Threat where
  id : String
  type : String
  ip : String
  location : String
  confidence : Int
  severity : Severity
  timestamp : String
  image : String
  description : String
deriving DecidableEq, Repr

/-- Node status enum (src: `'active' | 'under_attack' | 'offline'`). -/
inductive NodeState where
  | active
  | under_attack
  | offline
deriving DecidableEq, Repr

/-- NodeStatus record (src/types: used by the Dashboard's `nodes` state). -/
structure NodeStatus where
  id : String
  name : String
  region : String
  status : NodeState
  uptime : String
  requests : Nat
deriving DecidableEq, Repr

/-- The `setLiveThreats` updater body in the Dashboard's `onThreat` callback
(src/App.tsx lines 153-158):
`const exists = prev.some((t) => t.id === newThreat.id);
 if (exists) return prev;
 return [newThreat, ...prev].slice(0, 50);` -/
def mergeThreat (prev : List Threat) (newThreat : Threat) : List Threat :=
  if prev.any (fun t => t.id == newThreat.id) then prev
  else (newThreat :: prev).take 50

lemma mergeThreat_of_dup (prev : List Threat) (t : Threat)
    (h : prev.any (fun x => x.id == t.id) = true) :
    mergeThreat prev t = prev := by
  simp [mergeThreat, h]

lemma mergeThreat_of_new (prev : List Threat) (t : Threat)
    (h : prev.any (fun x => x.id == t.id) = false) :
    mergeThreat prev t = (t :: prev).take 50 := by
  simp [mergeThreat, h]

lemma mergeThreat_nodup (prev : List Threat) (t : Threat)
    (h : (prev.map (fun x => x.id)).Nodup) :
    ((mergeThreat prev t).map (fun x => x.id)).Nodup := by
  by_cases hdup : prev.any (fun x => x.id == t.id) = true
  · rw [mergeThreat_of_dup prev t hdup]; exact h
  · rw [mergeThreat_of_new prev t (by simpa using hdup)]
    have hnotin : t.id ∉ prev.map (fun x => x.id) := by
      intro hmem
      rcases List.mem_map.mp hmem with ⟨x, hx, hxid⟩
      apply hdup
      exact List.any_eq_true.mpr ⟨x, hx, by simp [hxid]⟩
    have hcons : ((t :: prev).map (fun x => x.id)).Nodup := by
      simpa using And.intro hnotin h
    have hsub : List.Sublist (((t :: prev).take 50).map (fun x => x.id))
        ((t :: prev).map (fun x => x.id)) :=
      List.Sublist.map _ (List.take_sublist 50 (t :: prev))
    exact hcons.sublist hsub

lemma mergeThreat_length (prev : List Threat) (t : Threat)
    (h : prev.length ≤ 50) :
    (mergeThreat prev t).length ≤ 50 := by
  by_cases hdup : prev.any (fun x => x.id == t.id) = true
  · rw [mergeThreat_of_dup prev t hdup]; exact h
  · rw [mergeThreat_of_new prev t (by simpa using hdup)]
    simp [List.length_take_le 50 (t :: prev)]

lemma foldl_mergeThreat_invariant (ts : List Threat) :
    ∀ s : List Threat, (s.map (fun x => x.id)).Nodup → s.length ≤ 50 →
      ((ts.foldl mergeThreat s).map (fun x => x.id)).Nodup ∧
        (ts.foldl mergeThreat s).length ≤ 50 := by
  induction ts with
  | nil => intro s h1 h2; exact ⟨h1, h2⟩
  | cons t ts ih =>
    intro s h1 h2
    exact ih (mergeThreat s t) (mergeThreat_nodup s t h1) (mergeThreat_length s t h2)

/-- C1: arrival merge into the ThreatStore.  A duplicate id leaves the store
unchanged; a new id is prepended and the result truncated to at most 50
entries; consequently every sequence of arrivals starting from the empty
store yields a store with pairwise-distinct ids of size at most 50. -/
theorem c1_arrival_merge (prev : List Threat) (t : Threat) (ts : List Threat) :
    (prev.any (fun x => x.id == t.id) = true → mergeThreat prev t = prev) ∧
    (prev.any (fun x => x.id == t.id) = false →
      mergeThreat prev t = (t :: prev).take 50) ∧
    ((ts.foldl mergeThreat []).map (fun x => x.id)).Nodup ∧
    (ts.foldl mergeThreat []).length ≤ 50 := by
  refine ⟨mergeThreat_of_dup prev t, mergeThreat_of_new prev t, ?_, ?_⟩
  · exact (foldl_mergeThreat_invariant ts [] (by simp) (by simp)).1
  · exact (foldl_mergeThreat_invariant ts [] (by simp) (by simp)).2

/-- Sample threats used to instantiate the universally quantified theorems
on concrete inputs. -/
def sampleThreatA : Threat :=
  { id := "a", type := "SQL Injection", ip := "1.2.3.4", location := "X",
    confidence := 90, severity := Severity.critical, timestamp := "t",
    image := "i", description := "d" }

def sampleThreatB : Threat :=
  { id := "b", type := "Port Scan", ip := "5.6.7.8", location := "Y",
    confidence := 88, severity := Severity.low, timestamp := "t",
    image := "i", description := "e" }

theorem c1_arrival_merge_witness :
    ([sampleThreatA].any (fun x => x.id == sampleThreatA.id) = true ∧
      mergeThreat [sampleThreatA] sampleThreatA = [sampleThreatA]) ∧
    ([sampleThreatA].any (fun x => x.id == sampleThreatB.id) = false ∧
      mergeThreat [sampleThreatA] sampleThreatB =
        [sampleThreatB, sampleThreatA]) ∧
    (([sampleThreatA, sampleThreatB, sampleThreatA].foldl mergeThreat []).map
        (fun x => x.id)).Nodup :=
  ⟨⟨by decide,
    (c1_arrival_merge [sampleThreatA] sampleThreatA []).1 (by decide)⟩,
   ⟨by decide,
    by
      have h := (c1_arrival_merge [sampleThreatA] sampleThreatB []).2.1 (by decide)
      simpa using h⟩,
   (c1_arrival_merge [] sampleThreatA
      [sampleThreatA, sampleThreatB, sampleThreatA]).2.2.1⟩

/-- The static fallback corpus MOCK_THREAT_LOGS (src/App.tsx lines 23-90),
shown when the backend is unavailable. -/
def MOCK_THREAT_LOGS : List Threat :=
  [ { id := "1", type := "SQL Injection", ip := "203.0.113.45",
      location := "Shanghai, CN", confidence := 98,
      severity := Severity.critical, timestamp := "10:42:05 UTC",
      image := "https://images.unsplash.com/photo-1558494949-efc02570fbc9?q=80&w=1000&auto=format&fit=crop",
      description := "Payload detected: \"\x27 OR 1=1 --\". ML Model classified as malicious SQL interaction. Target: /login endpoint." },
    { id := "2", type := "XSS Attempt", ip := "198.51.100.23",
      location := "St. Petersburg, RU", confidence := 92,
      severity := Severity.high, timestamp := "10:41:12 UTC",
      image := "https://images.unsplash.com/photo-1526374965328-7f61d4dc18c5?q=80&w=1000&auto=format&fit=crop",
      description := "Reflected Cross-Site Scripting vector identified in search parameter. Script tags detected in encoded URL." },
    { id := "3", type := "SSH Brute Force", ip := "185.199.108.153",
      location := "Lagos, NG", confidence := 89,
      severity := Severity.medium, timestamp := "10:38:55 UTC",
      image := "https://images.unsplash.com/photo-1614064641938-3bbee52942c7?q=80&w=1000&auto=format&fit=crop",
      description := "Rapid authentication failures detected on port 22. 50 attempts in 3 seconds. Pattern matches dictionary attack." },
    { id := "4", type := "Directory Traversal", ip := "45.33.22.11",
      location := "Frankfurt, DE", confidence := 95,
      severity := Severity.high, timestamp := "10:35:01 UTC",
      image := "https://images.unsplash.com/photo-1516110833967-0b5716ca1387?q=80&w=1000&auto=format&fit=crop",
      description := "Path manipulation attempt: \"../../../etc/passwd\". Blocked by WAF rule set #402." },
    { id := "5", type := "Port Scanning", ip := "104.244.42.1",
      location := "New York, US", confidence := 75,
      severity := Severity.low, timestamp := "10:30:22 UTC",
      image := "https://images.unsplash.com/photo-1544197150-b99a580bbcbf?q=80&w=1000&auto=format&fit=crop",
      description := "Sequential TCP SYN scan detected across ports 1000-2000. Low rate, likely reconnaissance." },
    { id := "6", type := "Command Injection", ip := "91.234.11.8",
      location := "Bucharest, RO", confidence := 99,
      severity := Severity.critical, timestamp := "10:28:15 UTC",
      image := "https://images.unsplash.com/photo-1555949963-aa79dcee981c?q=80&w=1000&auto=format&fit=crop",
      description := "System call injected into image upload handler: \"; cat /etc/shadow\". Execution prevented in sandbox." } ]

/-- Display composition `allThreats` (src/App.tsx lines 120-122):
`isBackendConnected && liveThreats.length > 0
   ? [...liveThreats, ...MOCK_THREAT_LOGS.slice(0, Math.max(0, 6 - liveThreats.length))]
   : MOCK_THREAT_LOGS`.
`Math.max(0, 6 - length)` is computed on Int before converting to a count. -/
def allThreats (isBackendConnected : Bool) (liveThreats : List Threat) :
    List Threat :=
  if isBackendConnected ∧ 0 < liveThreats.length then
    liveThreats ++
      MOCK_THREAT_LOGS.take (Int.toNat (max 0 (6 - (liveThreats.length : Int))))
  else MOCK_THREAT_LOGS

/-- C3: display composition.  When connected with a non-empty live store, the
display is the live store followed by exactly the first
max(0, 6 - liveCount) fallback entries; with fewer than 6 live threats the
total is exactly 6; with 6 or more no fallback entry appears and no live
entry is dropped; otherwise the display is the full fallback corpus; the
display is always non-empty. -/
theorem c3_display_composition (connected : Bool) (live : List Threat) :
    (connected = true → live ≠ [] →
      allThreats connected live =
        live ++ MOCK_THREAT_LOGS.take
          (Int.toNat (max 0 (6 - (live.length : Int))))) ∧
    (connected = true → live ≠ [] → live.length < 6 →
      (allThreats connected live).length = 6) ∧
    (connected = true → 6 ≤ live.length → allThreats connected live = live) ∧
    (connected = false ∨ live = [] → allThreats connected live = MOCK_THREAT_LOGS) ∧
    allThreats connected live ≠ [] := by
  refine ⟨?_, ?_, ?_, ?_, ?_⟩
  · intro hc hne
    have hpos : 0 < live.length := List.length_pos.mpr hne
    simp [allThreats, hc, hpos]
  · intro hc hne hlt
    have hpos : 0 < live.length := List.length_pos.mpr hne
    have hmock : MOCK_THREAT_LOGS.length = 6 := by decide
    have htn : Int.toNat (max 0 (6 - (live.length : Int))) = 6 - live.length := by
      omega
    simp only [allThreats, hc, hpos, and_self, if_pos, List.length_append,
      List.length_take, htn, hmock, true_and]
    omega
  · intro hc hge
    have hpos : 0 < live.length := by omega
    have htn : Int.toNat (max 0 (6 - (live.length : Int))) = 0 := by omega
    simp [allThreats, hc, hpos, htn]
  · intro h
    rcases h with h | h
    · simp [allThreats, h]
    · simp [allThreats, h]
  · by_cases hc : connected = true ∧ 0 < live.length
    · have hne : live ≠ [] := List.length_pos.mp hc.2
      simp [allThreats, hc.1, hc.2, hne]
    · have : allThreats connected live = MOCK_THREAT_LOGS := by
        simp only [allThreats, if_neg hc]
      rw [this]; decide

theorem c3_display_composition_witness :
    allThreats true [sampleThreatA] =
      [sampleThreatA] ++ MOCK_THREAT_LOGS.take 5 ∧
    (allThreats true [sampleThreatA]).length = 6 ∧
    allThreats false [sampleThreatA] = MOCK_THREAT_LOGS ∧
    allThreats true [] = MOCK_THREAT_LOGS :=
  ⟨by
    have h := (c3_display_composition true [sampleThreatA]).1 rfl (by decide)
    simpa using h,
   (c3_display_composition true [sampleThreatA]).2.1 rfl (by decide) (by decide),
   (c3_display_composition false [sampleThreatA]).2.2.2.1 (Or.inl rfl),
   (c3_display_composition true []).2.2.2.1 (Or.inr rfl)⟩

/-- JavaScript `toLowerCase()` modelled as per-character lowercasing. -/
def toLowerCaseStr (s : String) : String := String.mk (s.toList.map Char.toLower)

/-- Does the character list `hay` start with `needle`? (helper for the
JavaScript `String.includes` model). -/
def startsWithChars : List Char → List Char → Bool
  | _, [] => true
  | [], _ :: _ => false
  | a :: as, b :: bs => a == b && startsWithChars as bs

/-- Does the character list `hay` contain `needle` as a contiguous run?
JavaScript `hay.includes(needle)`. -/
def containsChars : List Char → List Char → Bool
  | [], needle => needle.isEmpty
  | c :: t, needle => startsWithChars (c :: t) needle || containsChars t needle

lemma startsWithChars_iff (hay needle : List Char) :
    startsWithChars hay needle = true ↔ ∃ rest, hay = needle ++ rest := by
  induction needle generalizing hay with
  | nil => simp [startsWithChars]
  | cons b bs ih =>
    cases hay with
    | nil => simp [startsWithChars]
    | cons a as =>
      simp only [startsWithChars, Bool.and_eq_true, beq_iff_eq, ih,
        List.cons_append, List.cons.injEq]
      constructor
      · rintro ⟨rfl, rest, rfl⟩; exact ⟨rest, rfl, rfl⟩
      · rintro ⟨rest, rfl, rfl⟩; exact ⟨rfl, rest, rfl⟩

lemma containsChars_iff (hay needle : List Char) :
    containsChars hay needle = true ↔ ∃ p s, hay = p ++ needle ++ s := by
  induction hay with
  | nil =>
    simp only [containsChars, List.isEmpty_iff]
    constructor
    · rintro rfl; exact ⟨[], [], rfl⟩
    · rintro ⟨p, s, h⟩
      rcases List.append_eq_nil.mp (List.append_eq_nil.mp h.symm).1 with ⟨-, h2⟩
      exact h2
  | cons a as ih =>
    simp only [containsChars, Bool.or_eq_true, startsWithChars_iff, ih]
    constructor
    · rintro (⟨rest, h⟩ | ⟨p, s, h⟩)
      · exact ⟨[], rest, by simp [h]⟩
      · exact ⟨a :: p, s, by simp [h]⟩
    · rintro ⟨p, s, h⟩
      cases p with
      | nil => exact Or.inl ⟨s, by simpa using h⟩
      | cons x xs =>
        have h2 : as = xs ++ needle ++ s := by
          have ht := congrArg List.tail h
          simpa using ht
        exact Or.inr ⟨xs, s, h2⟩

/-- JavaScript `hay.includes(needle)` on strings. -/
def strIncludes (hay needle : String) : Bool :=
  containsChars hay.toList needle.toList

/-- The `matchesSearch` predicate of `filteredThreats` (src/App.tsx lines
129-133): empty query, or a case-insensitive substring hit on type, ip,
location, or description. -/
def matchesSearch (searchQuery : String) (threat : Threat) : Bool :=
  searchQuery == "" ||
  strIncludes (toLowerCaseStr threat.type) (toLowerCaseStr searchQuery) ||
  strIncludes (toLowerCaseStr threat.ip) (toLowerCaseStr searchQuery) ||
  strIncludes (toLowerCaseStr threat.location) (toLowerCaseStr searchQuery) ||
  strIncludes (toLowerCaseStr threat.description) (toLowerCaseStr searchQuery)

/-- The `matchesFilter` predicate of `filteredThreats` (src/App.tsx line 135):
`filterType === 'all' || threat.type === filterType`. -/
def matchesFilter (filterType : String) (threat : Threat) : Bool :=
  filterType == "all" || threat.type == filterType

/-- The `filteredThreats` computation (src/App.tsx lines 128-138):
`allThreats.filter(threat => matchesSearch && matchesFilter)`. -/
def filteredThreats (searchQuery filterType : String) (l : List Threat) :
    List Threat :=
  l.filter (fun threat =>
    matchesSearch searchQuery threat && matchesFilter filterType threat)

/-- C7: FilterEngine correctness.  The result is exactly the sublist of
entries matching both the case-insensitive substring search (empty query
matches everything) and the exact type filter ("all" matches everything);
it preserves the input order (sublist), membership is characterized by the
two predicates, a query matching no record yields [] with count 0, and the
search predicate really is substring containment of the lowercased query
in a lowercased field. -/
theorem c7_filter_engine (q ft : String) (l : List Threat) :
    filteredThreats q ft l =
      l.filter (fun t => matchesSearch q t && matchesFilter ft t) ∧
    (∀ t, matchesSearch "" t = true) ∧
    (∀ t, matchesFilter "all" t = true) ∧
    List.Sublist (filteredThreats q ft l) l ∧
    (∀ t, t ∈ filteredThreats q ft l ↔
      t ∈ l ∧ matchesSearch q t = true ∧ matchesFilter ft t = true) ∧
    ((∀ t ∈ l, matchesSearch q t = false) →
      filteredThreats q ft l = [] ∧ (filteredThreats q ft l).length = 0) ∧
    (∀ hay needle : String, strIncludes hay needle = true ↔
      ∃ p s, hay.toList = p ++ needle.toList ++ s) := by
  refine ⟨rfl, ?_, ?_, ?_, ?_, ?_, ?_⟩
  · intro t; simp [matchesSearch]
  · intro t; simp [matchesFilter]
  · exact List.filter_sublist l
  · intro t
    simp [filteredThreats, List.mem_filter]
  · intro hnone
    have hempty : filteredThreats q ft l = [] := by
      apply List.filter_eq_nil_iff.mpr
      intro t ht
      simp [hnone t ht]
    exact ⟨hempty, by simp [hempty]⟩
  · intro hay needle
    exact containsChars_iff hay.toList needle.toList

theorem c7_filter_engine_witness :
    filteredThreats "sql" "all" MOCK_THREAT_LOGS =
      [ ({ id := "1", type := "SQL Injection", ip := "203.0.113.45",
           location := "Shanghai, CN", confidence := 98,
           severity := Severity.critical, timestamp := "10:42:05 UTC",
           image := "https://images.unsplash.com/photo-1558494949-efc02570fbc9?q=80&w=1000&auto=format&fit=crop",
           description := "Payload detected: \"\x27 OR 1=1 --\". ML Model classified as malicious SQL interaction. Target: /login endpoint." } : Threat) ] ∧
    filteredThreats "zzzz" "all" MOCK_THREAT_LOGS = [] ∧
    (filteredThreats "zzzz" "all" MOCK_THREAT_LOGS).length = 0 :=
  ⟨by decide,
   ((c7_filter_engine "zzzz" "all" MOCK_THREAT_LOGS).2.2.2.2.2.1
     (by decide)).1,
   ((c7_filter_engine "zzzz" "all" MOCK_THREAT_LOGS).2.2.2.2.2.1
     (by decide)).2⟩

/-- Toast kind (src: `{ message: string; type: 'success' | 'error' }`). -/
inductive ToastKind where
  | success
  | error
deriving DecidableEq, Repr

/-- Toast notification payload. -/
structure Toast where
  message : String
  kind : ToastKind
deriving DecidableEq, Repr

/-- The Dashboard component's state slices relevant to the pipeline
(src/App.tsx lines 98-117). -/
structure DashState where
  liveThreats : List Threat
  isBackendConnected : Bool
  toast : Option Toast
  attackAlert : Option Threat
  isAlertAcknowledged : Bool
  selectedThreat : Option Threat
  rebootingIndex : Option Nat
  nodes : List NodeStatus
deriving DecidableEq, Repr

/-- Initial `nodes` state (src/App.tsx lines 113-117). -/
def initialNodes : List NodeStatus :=
  [ { id := "n1", name := "Web-Honeypot-01", region := "US-East",
      status := NodeState.active, uptime := "14d 2h", requests := 4521 },
    { id := "n2", name := "DB-Trap-Alpha", region := "EU-West",
      status := NodeState.under_attack, uptime := "2d 5h", requests := 12890 },
    { id := "n3", name := "SSH-Decoy-X", region := "AP-South",
      status := NodeState.active, uptime := "45d 1h", requests := 890 } ]

/-- The `setNodes` updater in `onThreat` (src/App.tsx lines 173-178):
`const updated = [...prevNodes]; updated[0].status = 'under_attack';
 updated[0].requests += 1; return updated;` — always the node at index 0. -/
def attackNodes : List NodeStatus → List NodeStatus
  | [] => []
  | n :: rest =>
    { n with status := NodeState.under_attack, requests := n.requests + 1 } :: rest

/-- The whole `onThreat` callback passed to `subscribeToLiveFeed`
(src/App.tsx lines 152-179), as one state transition: merge into the
store, set connected, set the alert and clear the acknowledged flag
(unconditionally), and flip node 0 to under_attack.  The audio cue is
fire-and-forget with all failures swallowed and touches no state, so it
has no counterpart here. -/
def onThreatEvent (s : DashState) (newThreat : Threat) : DashState :=
  { s with
    liveThreats := mergeThreat s.liveThreats newThreat,
    isBackendConnected := true,
    attackAlert := some newThreat,
    isAlertAcknowledged := false,
    nodes := attackNodes s.nodes }

/-- A state whose live store already holds the id of `sampleThreatB`, so a
second arrival of `sampleThreatB` is a duplicate. -/
def dupState : DashState :=
  { liveThreats := [sampleThreatB], isBackendConnected := true, toast := none,
    attackAlert := none, isAlertAcknowledged := true, selectedThreat := none,
    rebootingIndex := none, nodes := initialNodes }

/-- C2 counterexample: a stream arrival whose id ("b") already exists in the
store leaves the store unchanged, yet the AlertController state does NOT
stay unchanged — the duplicate arrival still sets the current alert and
clears the acknowledged flag. -/
theorem c2_counterexample :
    dupState.liveThreats.any (fun x => x.id == sampleThreatB.id) = true ∧
    (onThreatEvent dupState sampleThreatB).liveThreats = dupState.liveThreats ∧
    (onThreatEvent dupState sampleThreatB).attackAlert ≠ dupState.attackAlert ∧
    (onThreatEvent dupState sampleThreatB).isAlertAcknowledged ≠
      dupState.isAlertAcknowledged := by
  decide

/-- C2 (amended): every stream arrival — duplicate or not — sets the current
alert to the arriving Threat and clears the acknowledged flag (the
transition into Active-Unacknowledged); a duplicate arrival leaves the
store itself unchanged but still triggers that transition. -/
theorem c2_amended_alert_on_every_arrival (s : DashState) (t : Threat) :
    (onThreatEvent s t).attackAlert = some t ∧
    (onThreatEvent s t).isAlertAcknowledged = false ∧
    (s.liveThreats.any (fun x => x.id == t.id) = true →
      (onThreatEvent s t).liveThreats = s.liveThreats) := by
  refine ⟨rfl, rfl, ?_⟩
  intro h
  simp [onThreatEvent, mergeThreat_of_dup _ _ h]

theorem c2_amended_witness :
    (onThreatEvent dupState sampleThreatB).attackAlert = some sampleThreatB ∧
    (onThreatEvent dupState sampleThreatB).liveThreats = dupState.liveThreats :=
  ⟨(c2_amended_alert_on_every_arrival dupState sampleThreatB).1,
   (c2_amended_alert_on_every_arrival dupState sampleThreatB).2.2 (by decide)⟩

/-- C4: on every entry into Active-Unacknowledged (which in the code happens
exactly at `onThreat`), the node at fixed index 0 is set to under_attack
with its requests counter incremented by exactly 1, while node 0's other
fields and the nodes at indices 1 and 2 are untouched. -/
theorem c4_attack_side_effect (s : DashState) (t : Threat)
    (n0 n1 n2 : NodeStatus) (h : s.nodes = [n0, n1, n2]) :
    (onThreatEvent s t).attackAlert = some t ∧
    (onThreatEvent s t).isAlertAcknowledged = false ∧
    (onThreatEvent s t).nodes =
      [ { id := n0.id, name := n0.name, region := n0.region,
          status := NodeState.under_attack, uptime := n0.uptime,
          requests := n0.requests + 1 }, n1, n2 ] := by
  refine ⟨rfl, rfl, ?_⟩
  simp [onThreatEvent, attackNodes, h]

theorem c4_attack_side_effect_witness :
    (onThreatEvent dupState sampleThreatA).nodes =
      [ { id := "n1", name := "Web-Honeypot-01", region := "US-East",
          status := NodeState.under_attack, uptime := "14d 2h",
          requests := 4522 },
        { id := "n2", name := "DB-Trap-Alpha", region := "EU-West",
          status := NodeState.under_attack, uptime := "2d 5h",
          requests := 12890 },
        { id := "n3", name := "SSH-Decoy-X", region := "AP-South",
          status := NodeState.active, uptime := "45d 1h", requests := 890 } ] := by
  have h := (c4_attack_side_effect dupState sampleThreatA
    initialNodes[0] initialNodes[1] initialNodes[2] (by decide)).2.2
  simpa using h

/-- In-place update of the node at a given index, as JavaScript
`newNodes[index] = ...` (out-of-range indices leave the list unchanged;
the Dashboard only ever passes indices 0..2 of its 3 fixed nodes). -/
def modifyNodeAt (i : Nat) (f : NodeStatus → NodeStatus) :
    List NodeStatus → List NodeStatus
  | [] => []
  | n :: rest =>
    match i with
    | 0 => f n :: rest
    | Nat.succ j => n :: modifyNodeAt j f rest

/-- The status toggle in the reboot timeout body (src/App.tsx line 227):
`status === 'active' ? 'offline' : 'active'`. -/
def toggleNodeStatus (st : NodeState) : NodeState :=
  if st = NodeState.active then NodeState.offline else NodeState.active

/-- A user click on node i's REBOOT control.  The control is rendered with
`disabled={isRebooting}` where `isRebooting = rebootingIndex === i`
(src/App.tsx lines 544, 592-594), so a click while that node is pending
dispatches nothing; otherwise `handleNodeAction` runs
`setRebootingIndex(index)` (line 222). -/
def rebootRequest (s : DashState) (i : Nat) : DashState :=
  if s.rebootingIndex = some i then s else { s with rebootingIndex := some i }

/-- The body of the 2500 ms `setTimeout` in `handleNodeAction`
(src/App.tsx lines 223-230): clear the pending flag, toggle the node's
status between active and offline, and reset its uptime to '0d 0h'. -/
def rebootComplete (s : DashState) (i : Nat) : DashState :=
  { s with
    rebootingIndex := none,
    nodes := modifyNodeAt i
      (fun n => { n with status := toggleNodeStatus n.status, uptime := "0d 0h" })
      s.nodes }

lemma modifyNodeAt_get_self (f : NodeStatus → NodeStatus) :
    ∀ (l : List NodeStatus) (i : Nat) (n : NodeStatus), l[i]? = some n →
      (modifyNodeAt i f l)[i]? = some (f n) := by
  intro l
  induction l with
  | nil => intro i n h; simp at h
  | cons a rest ih =>
    intro i n h
    cases i with
    | zero =>
      simp only [List.getElem?_cons_zero, Option.some.injEq] at h
      simp [modifyNodeAt, h]
    | succ j =>
      simp only [List.getElem?_cons_succ] at h
      simpa [modifyNodeAt] using ih j n h
lemma modifyNodeAt_get_other (f : NodeStatus → NodeStatus) :
    ∀ (l : List NodeStatus) (i k : Nat), k ≠ i →
      (modifyNodeAt i f l)[k]? = l[k]? := by
  intro l
  induction l with
  | nil => intro i k _; cases i <;> simp [modifyNodeAt]
  | cons a rest ih =>
    intro i k hk
    cases i with
    | zero =>
      cases k with
      | zero => exact absurd rfl hk
      | succ m => simp [modifyNodeAt]
    | succ j =>
      cases k with
      | zero => simp [modifyNodeAt]
      | succ m =>
        have hm : m ≠ j := by omega
        simpa [modifyNodeAt] using ih j m hm

/-- C5: manual reboot.  A reboot request on a node that is already pending
dispatches nothing (the control is disabled); the pending flag is scoped so
that every other node's control stays enabled; when the 2500 ms timer
fires the pending flag clears, the target node's status toggles exactly
once (active to offline, offline to active), its uptime resets to the zero
display value '0d 0h', and every other node is untouched. -/
theorem c5_manual_reboot (s : DashState) (i j : Nat) (n : NodeStatus) :
    (s.rebootingIndex = some i → rebootRequest s i = s) ∧
    (s.rebootingIndex = some i → j ≠ i → s.rebootingIndex ≠ some j) ∧
    (s.rebootingIndex = none → rebootRequest s i =
      { s with rebootingIndex := some i }) ∧
    (rebootComplete s i).rebootingIndex = none ∧
    (s.nodes[i]? = some n → (rebootComplete s i).nodes[i]? =
      some { n with status := toggleNodeStatus n.status, uptime := "0d 0h" }) ∧
    toggleNodeStatus NodeState.active = NodeState.offline ∧
    toggleNodeStatus NodeState.offline = NodeState.active ∧
    (∀ k, k ≠ i → (rebootComplete s i).nodes[k]? = s.nodes[k]?) := by
  refine ⟨?_, ?_, ?_, rfl, ?_, rfl, rfl, ?_⟩
  · intro h; simp [rebootRequest, h]
  · intro h hne
    rw [h]
    intro heq
    exact hne (Option.some_inj.mp heq).symm
  · intro h; simp [rebootRequest, h]
  · intro h
    exact modifyNodeAt_get_self _ s.nodes i n h
  · intro k hk
    exact modifyNodeAt_get_other _ s.nodes i k hk

theorem c5_manual_reboot_witness :
    rebootRequest { dupState with rebootingIndex := some 0 } 0 =
      { dupState with rebootingIndex := some 0 } ∧
    (rebootComplete { dupState with rebootingIndex := some 0 } 0).rebootingIndex
      = none ∧
    (rebootComplete { dupState with rebootingIndex := some 0 } 0).nodes[0]? =
      some { id := "n1", name := "Web-Honeypot-01", region := "US-East",
             status := NodeState.offline, uptime := "0d 0h", requests := 4521 } ∧
    (rebootComplete { dupState with rebootingIndex := some 0 } 0).nodes[1]? =
      { dupState with rebootingIndex := some 0 }.nodes[1]? :=
  ⟨(c5_manual_reboot { dupState with rebootingIndex := some 0 } 0 1
      initialNodes[0]).1 rfl,
   (c5_manual_reboot { dupState with rebootingIndex := some 0 } 0 1
      initialNodes[0]).2.2.2.1,
   by
     have h := (c5_manual_reboot { dupState with rebootingIndex := some 0 } 0 1
       initialNodes[0]).2.2.2.2.1 (by decide)
     simpa using h,
   (c5_manual_reboot { dupState with rebootingIndex := some 0 } 0 1
      initialNodes[0]).2.2.2.2.2.2.2 1 (by decide)⟩

/-- C10: the post-reboot toggle maps every non-active status to active, so
rebooting a node whose status is under_attack yields active (with uptime
reset) once the timer fires. -/
theorem c10_reboot_clears_under_attack (s : DashState) (i : Nat)
    (n : NodeStatus) (hget : s.nodes[i]? = some n)
    (hstat : n.status = NodeState.under_attack) :
    (rebootComplete s i).nodes[i]? =
      some { n with status := NodeState.active, uptime := "0d 0h" } ∧
    toggleNodeStatus NodeState.under_attack = NodeState.active ∧
    (rebootComplete s i).rebootingIndex = none := by
  refine ⟨?_, rfl, rfl⟩
  have h := modifyNodeAt_get_self
    (fun n => { n with status := toggleNodeStatus n.status, uptime := "0d 0h" })
    s.nodes i n hget
  simpa [rebootComplete, toggleNodeStatus, hstat] using h

theorem c10_reboot_clears_under_attack_witness :
    (rebootComplete dupState 1).nodes[1]? =
      some { id := "n2", name := "DB-Trap-Alpha", region := "EU-West",
             status := NodeState.active, uptime := "0d 0h",
             requests := 12890 } :=
  (c10_reboot_clears_under_attack dupState 1 initialNodes[1]
    (by decide) (by decide)).1

/-- `getSeverity` (src/services/api.ts lines 43-54): fixed lookup table with
default "medium". -/
def getSeverity (attackType : String) : Severity :=
  if attackType = "SQL Injection" then Severity.critical
  else if attackType = "Command Injection" then Severity.critical
  else if attackType = "XSS" then Severity.high
  else if attackType = "Directory Traversal" then Severity.high
  else if attackType = "Brute Force" then Severity.medium
  else if attackType = "Port Scan" then Severity.low
  else if attackType = "Normal" then Severity.low
  else Severity.medium

/-- `getConfidence` (src/services/api.ts lines 57-60):
`if (attackType === 'Normal') return Math.floor(Math.random() * 30) + 20;
 return Math.floor(Math.random() * 15) + 85;`
The `Math.random()` draw is the explicit parameter r, a rational in [0,1). -/
def getConfidence (attackType : String) (r : ℚ) : Int :=
  if attackType = "Normal" then ⌊r * 30⌋ + 20 else ⌊r * 15⌋ + 85

/-- `THREAT_IMAGES[attackType] || THREAT_IMAGES['default']`
(src/services/api.ts lines 32-40, 83). -/
def THREAT_IMAGES (attackType : String) : String :=
  if attackType = "SQL Injection" then
    "https://images.unsplash.com/photo-1558494949-efc02570fbc9?q=80&w=1000&auto=format&fit=crop"
  else if attackType = "XSS" then
    "https://images.unsplash.com/photo-1526374965328-7f61d4dc18c5?q=80&w=1000&auto=format&fit=crop"
  else if attackType = "Brute Force" then
    "https://images.unsplash.com/photo-1614064641938-3bbee52942c7?q=80&w=1000&auto=format&fit=crop"
  else if attackType = "Directory Traversal" then
    "https://images.unsplash.com/photo-1516110833967-0b5716ca1387?q=80&w=1000&auto=format&fit=crop"
  else if attackType = "Port Scan" then
    "https://images.unsplash.com/photo-1544197150-b99a580bbcbf?q=80&w=1000&auto=format&fit=crop"
  else if attackType = "Command Injection" then
    "https://images.unsplash.com/photo-1555949963-aa79dcee981c?q=80&w=1000&auto=format&fit=crop"
  else
    "https://images.unsplash.com/photo-1550751827-4bd374c3f58b?q=80&w=1000&auto=format&fit=crop"

/-- Backend attack-log record (src/services/api.ts lines 63-74).  `payload`
is nullable; `user_agent` is optional-chained in the code, so both are
modelled as Option String. -/
structure BackendAttackLog where
  id : Int
  timestamp : String
  ip_address : String
  country : String
  city : String
  endpoint : String
  method : String
  payload : Option String
  user_agent : Option String
  attack_type : String
deriving DecidableEq, Repr

/-- JavaScript truthiness of a nullable string: null/undefined and "" are
falsy. -/
def strTruthy : Option String → Bool
  | none => false
  | some s => !(s == "")

/-- `transformToThreat` (src/services/api.ts lines 77-104).  Two external
effects are explicit parameters: r is the `Math.random()` draw consumed by
`getConfidence`, and fmtTime abstracts
`new Date(log.timestamp + 'Z').toLocaleTimeString(...)`, the platform's
locale formatting (its input, the naive timestamp with 'Z' appended to
force UTC, is built here).  String lengths count characters, matching
JavaScript on the ASCII data involved. -/
def transformToThreat (log : BackendAttackLog) (r : ℚ)
    (fmtTime : String → String) : Threat :=
  let location :=
    if log.city ≠ "" ∧ log.city ≠ "Unknown" then log.city ++ ", " ++ log.country
    else if log.country ≠ "" then log.country else "Unknown"
  let attackType := if log.attack_type = "" then "Unknown" else log.attack_type
  let uaDisplay :=
    match log.user_agent with
    | none => "Unknown"
    | some ua => if ua.take 50 = "" then "Unknown" else ua.take 50
  { id := toString log.id,
    type := attackType,
    ip := log.ip_address,
    location := location,
    confidence := getConfidence attackType r,
    severity := getSeverity attackType,
    timestamp := fmtTime (log.timestamp ++ "Z"),
    image := THREAT_IMAGES attackType,
    description :=
      if strTruthy log.payload then
        let p := log.payload.getD ""
        "Payload detected: \"" ++ p.take 100 ++
          (if 100 < p.length then "..." else "") ++ "\". Target: " ++
          log.endpoint ++ " [" ++ log.method ++ "]"
      else
        "Request to " ++ log.endpoint ++ " endpoint via " ++ log.method ++
          ". User-Agent: " ++ uaDisplay ++ "..." }

/-- C6 counterexample: the claim puts the non-"Normal" confidence uniformly
in the inclusive range [85,100], but the value 100 is unreachable — for
every draw r in [0,1) the synthesized confidence is strictly below 100. -/
theorem c6_counterexample :
    ¬ ∃ r : ℚ, 0 ≤ r ∧ r < 1 ∧ getConfidence "SQL Injection" r = 100 := by
  rintro ⟨r, h0, h1, heq⟩
  have hne : ¬ ("SQL Injection" = "Normal") := by decide
  rw [getConfidence, if_neg hne] at heq
  have hfl : (⌊r * 15⌋ : Int) = 15 := by omega
  have hge : (15 : ℚ) ≤ r * 15 := by
    have := Int.le_floor.mp hfl.ge
    simpa using this
  have hlt : r * 15 < 15 := by
    have h15 : (0 : ℚ) < 15 := by norm_num
    calc r * 15 < 1 * 15 := by exact mul_lt_mul_of_pos_right h1 h15
    _ = 15 := by ring
  linarith

lemma confidence_window (k base : Int) (hk : 0 < k) (r : ℚ)
    (h0 : 0 ≤ r) (h1 : r < 1) :
    base ≤ ⌊r * k⌋ + base ∧ ⌊r * k⌋ + base < base + k ∧
    ∀ v : Int, base ≤ v → v < base + k →
      (⌊r * k⌋ + base = v ↔
        ((v : ℚ) - base) / k ≤ r ∧ r < ((v : ℚ) - base + 1) / k) := by
  have hkq : (0 : ℚ) < (k : ℚ) := by exact_mod_cast hk
  have hfl0 : 0 ≤ ⌊r * (k : ℚ)⌋ := Int.floor_nonneg.mpr (mul_nonneg h0 hkq.le)
  have hflk : ⌊r * (k : ℚ)⌋ < k := by
    apply Int.floor_lt.mpr
    calc r * k < 1 * k := by exact mul_lt_mul_of_pos_right h1 hkq
    _ = (k : ℚ) := by ring
  refine ⟨by omega, by omega, ?_⟩
  intro v hv1 hv2
  constructor
  · intro heq
    have hfeq : ⌊r * (k : ℚ)⌋ = v - base := by omega
    rcases Int.floor_eq_iff.mp hfeq with ⟨hlo, hhi⟩
    constructor
    · rw [div_le_iff₀ hkq]
      calc ((v : ℚ) - base) = ((v - base : Int) : ℚ) := by push_cast; ring
      _ ≤ r * k := hlo
    · rw [lt_div_iff₀ hkq]
      calc r * k < ((v - base : Int) : ℚ) + 1 := hhi
      _ = ((v : ℚ) - base + 1) := by push_cast; ring
  · rintro ⟨hlo, hhi⟩
    rw [div_le_iff₀ hkq] at hlo
    rw [lt_div_iff₀ hkq] at hhi
    have hfeq : ⌊r * (k : ℚ)⌋ = v - base := by
      apply Int.floor_eq_iff.mpr
      constructor
      · calc ((v - base : Int) : ℚ) = (v : ℚ) - base := by push_cast; ring
        _ ≤ r * k := hlo
      · calc r * k < (v : ℚ) - base + 1 := hhi
        _ = ((v - base : Int) : ℚ) + 1 := by push_cast; ring
    omega

/-- C6 (amended): the synthesized confidence is floor(r*15)+85 for any
attack_type other than "Normal" — a uniformly distributed integer in
[85,100), i.e. 85..99, the value 100 never occurring — and floor(r*30)+20
for "Normal", a uniformly distributed integer in [20,50); uniformity is
expressed by each attainable value corresponding to a draw interval of
identical width (1/15 resp. 1/30), and the record-to-Threat transform
assigns exactly this value. -/
theorem c6_amended_confidence (a : String) (r : ℚ) (h0 : 0 ≤ r) (h1 : r < 1) :
    (a ≠ "Normal" →
      85 ≤ getConfidence a r ∧ getConfidence a r < 100 ∧
      ∀ v : Int, 85 ≤ v → v < 100 →
        (getConfidence a r = v ↔
          ((v : ℚ) - 85) / 15 ≤ r ∧ r < ((v : ℚ) - 85 + 1) / 15)) ∧
    (a = "Normal" →
      20 ≤ getConfidence a r ∧ getConfidence a r < 50 ∧
      ∀ v : Int, 20 ≤ v → v < 50 →
        (getConfidence a r = v ↔
          ((v : ℚ) - 20) / 30 ≤ r ∧ r < ((v : ℚ) - 20 + 1) / 30)) ∧
    ∀ (log : BackendAttackLog) (fmtTime : String → String),
      (transformToThreat log r fmtTime).confidence =
        getConfidence (transformToThreat log r fmtTime).type r := by
  refine ⟨?_, ?_, fun log fmtTime => rfl⟩
  · intro hne
    have hgc : getConfidence a r = ⌊r * 15⌋ + 85 := by
      simp [getConfidence, hne]
    rw [hgc]
    have h := confidence_window 15 85 (by norm_num) r h0 h1
    push_cast at h
    exact ⟨h.1, by have := h.2.1; omega, by
      intro v hv1 hv2
      have := h.2.2 v hv1 (by omega)
      simpa using this⟩
  · intro heq
    have hgc : getConfidence a r = ⌊r * 30⌋ + 20 := by
      simp [getConfidence, heq]
    rw [hgc]
    have h := confidence_window 30 20 (by norm_num) r h0 h1
    push_cast at h
    exact ⟨h.1, by have := h.2.1; omega, by
      intro v hv1 hv2
      have := h.2.2 v hv1 (by omega)
      simpa using this⟩

theorem c6_amended_confidence_witness :
    (85 ≤ getConfidence "Port Scan" 0 ∧ getConfidence "Port Scan" 0 < 100) ∧
    (20 ≤ getConfidence "Normal" 0 ∧ getConfidence "Normal" 0 < 50) :=
  ⟨⟨((c6_amended_confidence "Port Scan" 0 (by norm_num) (by norm_num)).1
      (by decide)).1,
    ((c6_amended_confidence "Port Scan" 0 (by norm_num) (by norm_num)).1
      (by decide)).2.1⟩,
   ⟨((c6_amended_confidence "Normal" 0 (by norm_num) (by norm_num)).2.1
      rfl).1,
    ((c6_amended_confidence "Normal" 0 (by norm_num) (by norm_num)).2.1
      rfl).2.1⟩⟩

/-- Result shape of the block-ip endpoint:
`{ success: boolean, message: string }`. -/
structure BlockResult where
  success : Bool
  message : String
deriving DecidableEq, Repr

/-- Outcome of the `fetch` round-trip inside `blockIP`
(src/services/api.ts lines 148-164): `failed` collapses every path the
`catch` swallows (network error, non-ok HTTP response, body parse
failure); `ok body` is a 2xx response with a parsed
`{ success, message }` body. -/
inductive FetchOutcome where
  | failed
  | ok (body : BlockResult)
deriving DecidableEq, Repr

/-- `blockIP` (src/services/api.ts lines 148-164) as a total function of the
transport outcome: the try/catch guarantees a `BlockResult` is always
returned, never an exception — failures yield the generic fallback
`{ success: false, message: 'Failed to block IP address' }`. -/
def blockIP : FetchOutcome → BlockResult
  | FetchOutcome.failed =>
    { success := false, message := "Failed to block IP address" }
  | FetchOutcome.ok body => body

/-- `handleBlockIP` (src/App.tsx lines 199-207): on a success result show a
success toast and close the detail view; otherwise show an error toast
and leave everything else alone.  No retry is issued. -/
def handleBlockIP (s : DashState) (outcome : FetchOutcome) : DashState :=
  let result := blockIP outcome
  if result.success then
    { s with
      toast := some { message := result.message, kind := ToastKind.success },
      selectedThreat := none }
  else
    { s with
      toast := some { message := result.message, kind := ToastKind.error } }

/-- C8: block-IP outcome handling.  `blockIP` is total (never raises): a
failed round-trip yields the generic fallback failure result and a parsed
body is passed through (server-supplied message).  A failure result
produces exactly one error toast carrying that message and leaves the
open detail view (and every other state slice) unchanged, with no retry;
a success result produces a success toast and closes the detail view in
the same action. -/
theorem c8_block_ip (s : DashState) (outcome : FetchOutcome) :
    blockIP FetchOutcome.failed =
      { success := false, message := "Failed to block IP address" } ∧
    (∀ body, blockIP (FetchOutcome.ok body) = body) ∧
    ((blockIP outcome).success = false →
      handleBlockIP s outcome =
        { s with toast := some { message := (blockIP outcome).message,
                                 kind := ToastKind.error } }) ∧
    ((blockIP outcome).success = false →
      (handleBlockIP s outcome).selectedThreat = s.selectedThreat) ∧
    ((blockIP outcome).success = true →
      handleBlockIP s outcome =
        { s with toast := some { message := (blockIP outcome).message,
                                 kind := ToastKind.success },
                 selectedThreat := none }) ∧
    (handleBlockIP s outcome).liveThreats = s.liveThreats ∧
    (handleBlockIP s outcome).nodes = s.nodes ∧
    (handleBlockIP s outcome).attackAlert = s.attackAlert ∧
    (handleBlockIP s outcome).rebootingIndex = s.rebootingIndex := by
  refine ⟨rfl, fun body => rfl, ?_, ?_, ?_, ?_, ?_, ?_, ?_⟩
  · intro h; simp [handleBlockIP, h]
  · intro h; simp [handleBlockIP, h]
  · intro h; simp [handleBlockIP, h]
  · by_cases h : (blockIP outcome).success <;> simp [handleBlockIP, h]
  · by_cases h : (blockIP outcome).success <;> simp [handleBlockIP, h]
  · by_cases h : (blockIP outcome).success <;> simp [handleBlockIP, h]
  · by_cases h : (blockIP outcome).success <;> simp [handleBlockIP, h]

theorem c8_block_ip_witness :
    handleBlockIP dupState FetchOutcome.failed =
      { dupState with
        toast := some { message := "Failed to block IP address",
                        kind := ToastKind.error } } ∧
    (handleBlockIP dupState FetchOutcome.failed).selectedThreat =
      dupState.selectedThreat ∧
    handleBlockIP { dupState with selectedThreat := some sampleThreatB }
        (FetchOutcome.ok { success := true, message := "IP blocked" }) =
      { dupState with
        toast := some { message := "IP blocked", kind := ToastKind.success },
        selectedThreat := none } :=
  ⟨(c8_block_ip dupState FetchOutcome.failed).2.2.1 (by decide),
   (c8_block_ip dupState FetchOutcome.failed).2.2.2.1 (by decide),
   by
     have h := (c8_block_ip { dupState with selectedThreat := some sampleThreatB }
       (FetchOutcome.ok { success := true, message := "IP blocked" })).2.2.2.2.1
       (by decide)
     simpa using h⟩

/-- The concrete backend record used for C9: a backend integer id 1 whose
stringified form collides with the fallback corpus id "1". -/
def sampleLog : BackendAttackLog :=
  { id := 1, timestamp := "2024-01-01T10:00:00", ip_address := "10.0.0.1",
    country := "US", city := "Boston", endpoint := "/login", method := "POST",
    payload := none, user_agent := some "curl/8.0",
    attack_type := "SQL Injection" }

/-- C9: duplicate-id suppression is checked only against the live store, not
the fallback corpus.  The live threat built from backend id 1 (stringified
to "1") is accepted into the empty store, whose ids stay unique; but with
connected = true and 1 < 6 live threats, the displayed list pads with
fallback entries whose ids are "1".."5", so two distinct entries (different
ip) share the id "1" and the displayed ids are not pairwise distinct. -/
theorem c9_display_id_collision :
    (transformToThreat sampleLog (1/2) (fun s => s)).id = toString sampleLog.id ∧
    (transformToThreat sampleLog (1/2) (fun s => s)).id = "1" ∧
    mergeThreat [] (transformToThreat sampleLog (1/2) (fun s => s)) =
      [transformToThreat sampleLog (1/2) (fun s => s)] ∧
    (([transformToThreat sampleLog (1/2) (fun s => s)]).map
        (fun x => x.id)).Nodup ∧
    (allThreats true [transformToThreat sampleLog (1/2) (fun s => s)]).map
        (fun x => x.id) = ["1", "1", "2", "3", "4", "5"] ∧
    (allThreats true [transformToThreat sampleLog (1/2) (fun s => s)]).map
        (fun x => x.ip) =
      ["10.0.0.1", "203.0.113.45", "198.51.100.23", "185.199.108.153",
       "45.33.22.11", "104.244.42.1"] ∧
    ¬ ((allThreats true [transformToThreat sampleLog (1/2) (fun s => s)]).map
        (fun x => x.id)).Nodup := by
  refine ⟨rfl, by decide, by simp [mergeThreat], by simp, ?_, ?_, ?_⟩
  · decide
  · decide
  · decide
